import Mathlib

/-!
Shallow embedding of `src/plcstub.c` (the tag-registry stub): data model,
attribute-string parsing, the typed get/set accessor layer, and the public
operations, together with theorems settling the specification claims.

Machine integers are modelled by `Int`/`Nat` with explicit wrap-around where
the C code converts; buffers are byte lists; the mutex and callback activity
of an operation is recorded as an explicit action trace.
-/

namespace PlcStub

/-- Modelled from the spec: status codes surfaced to callers (spec §6) are
`Ok`, `BadParam`, `NotFound`.  `libplctag.h` is not under `src/`; numeric
values follow the library convention of `Ok = 0` and negative error codes.
No claim below depends on the exact negative values. -/
def PLCTAG_STATUS_OK : Int := 0

/-- Modelled from the spec: see `PLCTAG_STATUS_OK`. -/
def PLCTAG_ERR_BAD_PARAM : Int := -7

/-- Modelled from the spec: see `PLCTAG_STATUS_OK`. -/
def PLCTAG_ERR_NOT_FOUND : Int := -19

/-- Modelled from the spec: the callback event kinds of spec §6
(`PLCTAG_EVENT_*` in the missing `libplctag.h`). -/
inductive Event where
  | readStarted
  | readCompleted
  | writeStarted
  | writeCompleted
  | aborted
  deriving DecidableEq, BEq, Repr

/-- One observable action of an operation: a mutex acquire (`MTX_LOCK`),
a mutex release (`MTX_UNLOCK`), or a callback invocation
`t->cb(tag, event, status)`. -/
inductive Action where
  | lock
  | unlock
  | cb (tagId : Int) (event : Event) (status : Int)
  deriving DecidableEq, BEq, Repr

/-- Modelled from the spec: `struct tag_tree_node` (declared in the missing
`tagtree.h`; fields used by `plcstub.c`): id, display name, element sizes
(unsigned per spec §3, hence `Nat`), backing byte buffer, and whether a
callback handler is registered (the handler itself is an external function
pointer; only its presence matters for the traces). -/
structure TagNode where
  tag_id : Int
  name : String
  elem_size : Nat
  elem_count : Nat
  data : List Nat
  cb : Bool
  deriving DecidableEq, Repr

/-- Modelled from the spec: the registry (spec §4.2) as the ordered
collection of nodes; `tagtree.c` is not under `src/`. -/
def tag_tree_lookup (reg : List TagNode) (id : Int) : Option TagNode :=
  match reg with
  | [] => none
  | t :: rest => if t.tag_id == id then some t else tag_tree_lookup rest id

/-- Modelled from the spec: next id = current maximum id + 1, or 1 for an
empty registry (spec §4.2 `allocate_and_insert`). -/
def tag_tree_next_id (reg : List TagNode) : Int :=
  (reg.foldl (fun m t => max m t.tag_id) 0) + 1

/-- Modelled from the spec: `tag_tree_create_node` allocates the next id and
inserts a node, whose remaining fields `plc_tag_create` then fills in. -/
def tag_tree_create_node (reg : List TagNode) : TagNode × List TagNode :=
  let t : TagNode :=
    { tag_id := tag_tree_next_id reg, name := "", elem_size := 0,
      elem_count := 0, data := [], cb := false }
  (t, reg ++ [t])

/-- Replace the first node whose id matches, modelling mutation through the
pointer returned by lookup. -/
def tag_tree_update (reg : List TagNode) (id : Int) (f : TagNode → TagNode) :
    List TagNode :=
  match reg with
  | [] => []
  | t :: rest =>
    if t.tag_id == id then f t :: rest else t :: tag_tree_update rest id f

/-! Section: Byte-level memory helpers -/

/-- Little-endian byte decomposition of `v`, `n` bytes. -/
def encodeLE : Nat → Nat → List Nat
  | 0, _ => []
  | n + 1, v => (v % 256) :: encodeLE n (v / 256)

/-- Little-endian value of a byte list. -/
def decodeLE : List Nat → Nat
  | [] => 0
  | b :: bs => b % 256 + 256 * decodeLE bs

/-- Overwrite `src.length` bytes of `buf` starting at `offset`; positions
past the end of `buf` are dropped (the C write there is out of bounds and is
treated separately, see the bounds-check claims). Length-preserving. -/
def writeBytes (buf : List Nat) (offset : Nat) (src : List Nat) : List Nat :=
  (List.range buf.length).map (fun i =>
    if offset ≤ i ∧ i < offset + src.length then src.getD (i - offset) 0
    else buf.getD i 0)

/-- Width in bytes of a machine pointer (`void *`) on the modelled platform. -/
def PTR_SIZE : Nat := 8

/-! Section: accessor layer (the GETTER / SETTER macro families).

Each macro instantiation differs only in `sizeof(type)`, so the callbacks are
modelled once, parametrized by the byte width `n`. -/

/-- Model of `plcstub_<name>_getter_cb`: `*(type *)(val) = *(type *)(buf + offset)` —
copies the `n` bytes of `buf` starting at `offset` (into the caller's `val`
local, here returned). -/
def plcstub_typed_getter_cb (n : Nat) (buf : List Nat) (offset : Int) :
    List Nat :=
  (buf.drop offset.toNat).take n

/-- Model of `plcstub_<name>_setter_cb`: `*(type *)(buf + offset) = *(type *)(val)` —
copies `n` bytes from the source bytes `src` (the bytes found at the pointer
it is handed) into `buf` at `offset`. -/
def plcstub_typed_setter_cb (n : Nat) (buf : List Nat) (offset : Int)
    (src : List Nat) : List Nat :=
  writeBytes buf offset.toNat (src.take n)

/-- Result of `plcstub_get_impl`: the returned status, the action trace, and
the bytes deposited into the caller's out-parameter by `fn` (`none` when `fn`
was never invoked, leaving the caller's local uninitialized). -/
structure GetResult where
  ret : Int
  trace : List Action
  out : Option (List Nat)
  deriving DecidableEq, Repr

/-- Model of `plcstub_get_impl` (src/src/plcstub.c:49-93).  Looks the tag up, locks
its mutex, fires `READ_STARTED`, bounds-checks
`offset >= t->elem_count * t->elem_size`, and either fires `ABORTED` and
returns `PLCTAG_ERR_BAD_PARAM` — note the source returns on this path
without reaching `MTX_UNLOCK` — or runs `fn(t->data, offset, buf)`, fires
`READ_COMPLETED`, unlocks and returns OK. -/
def plcstub_get_impl (reg : List TagNode) (tag : Int) (offset : Int)
    (fn : List Nat → Int → List Nat) : GetResult :=
  match tag_tree_lookup reg tag with
  | none => { ret := PLCTAG_ERR_NOT_FOUND, trace := [], out := none }
  | some t =>
    if ((t.elem_count * t.elem_size : Nat) : Int) ≤ offset then
      { ret := PLCTAG_ERR_BAD_PARAM
        trace := Action.lock ::
          (if t.cb then [Action.cb tag Event.readStarted PLCTAG_STATUS_OK]
           else []) ++
          (if t.cb then [Action.cb tag Event.aborted PLCTAG_ERR_BAD_PARAM]
           else [])
        out := none }
    else
      { ret := PLCTAG_STATUS_OK
        trace := Action.lock ::
          (if t.cb then [Action.cb tag Event.readStarted PLCTAG_STATUS_OK]
           else []) ++
          (if t.cb then [Action.cb tag Event.readCompleted PLCTAG_STATUS_OK]
           else []) ++ [Action.unlock]
        out := some (fn t.data offset) }

/-- Result of `plcstub_set_impl`: status, updated registry, action trace. -/
structure SetResult where
  ret : Int
  reg : List TagNode
  trace : List Action
  deriving DecidableEq, Repr

/-- Model of `plcstub_set_impl` (src/src/plcstub.c:95-139).  Same shape as the get
path with `WRITE_*` events; the out-of-bounds return likewise skips
`MTX_UNLOCK`.  The source invokes `fn(t->data, offset, &value)`: it hands
`fn` the address of its own `value` pointer variable, so the bytes `fn`
copies are the little-endian representation of the pointer `value` itself
(the address of the caller's `val` local), not the caller's value bytes.
`value` is that address. -/
def plcstub_set_impl (reg : List TagNode) (tag : Int) (offset : Int)
    (value : Nat) (fn : List Nat → Int → List Nat → List Nat) : SetResult :=
  match tag_tree_lookup reg tag with
  | none => { ret := PLCTAG_ERR_NOT_FOUND, reg := reg, trace := [] }
  | some t =>
    if ((t.elem_count * t.elem_size : Nat) : Int) ≤ offset then
      { ret := PLCTAG_ERR_BAD_PARAM
        reg := reg
        trace := Action.lock ::
          (if t.cb then [Action.cb tag Event.writeStarted PLCTAG_STATUS_OK]
           else []) ++
          (if t.cb then [Action.cb tag Event.aborted PLCTAG_ERR_BAD_PARAM]
           else []) }
    else
      { ret := PLCTAG_STATUS_OK
        reg := tag_tree_update reg tag (fun u =>
          { u with data := fn t.data offset (encodeLE PTR_SIZE value) })
        trace := Action.lock ::
          (if t.cb then [Action.cb tag Event.writeStarted PLCTAG_STATUS_OK]
           else []) ++
          (if t.cb then [Action.cb tag Event.writeCompleted PLCTAG_STATUS_OK]
           else []) ++ [Action.unlock] }

/-- Model of `plc_tag_get_<name>` (GETTER macro, src/src/plcstub.c:25-36): declares an
uninitialized local `val` (initial indeterminate contents `valInit`), calls
`plcstub_get_impl` discarding its status, and returns `val` — which still
holds `valInit` whenever the impl never invoked `fn`. `n = sizeof(type)`. -/
def plc_tag_get_typed (n : Nat) (reg : List TagNode) (tag : Int)
    (offset : Int) (valInit : Nat) : Nat × List Action :=
  let r := plcstub_get_impl reg tag offset (plcstub_typed_getter_cb n)
  (match r.out with
   | some bs => decodeLE bs
   | none => valInit,
   r.trace)

/-- Model of `plc_tag_set_<name>` (SETTER macro, src/src/plcstub.c:38-47): stores
`val` in a local and passes that local's address `addrOfVal` to
`plcstub_set_impl`, returning its status.  Because of the `&value` argument
inside the impl (see `plcstub_set_impl`), the value `val` itself never
reaches the buffer. -/
def plc_tag_set_typed (n : Nat) (reg : List TagNode) (tag : Int)
    (offset : Int) (val : Nat) (addrOfVal : Nat) : SetResult :=
  plcstub_set_impl reg tag offset addrOfVal (plcstub_typed_setter_cb n)

/-! Section: Attribute-string parsing and `plc_tag_create` -/

/-- C `atoi`: skip leading whitespace, optional sign, value of the leading
digit run (0 when there are none). -/
def atoiChars (s : List Char) : Int :=
  let digitsVal (l : List Char) : Int :=
    l.foldl (fun a c => a * 10 + ((c.toNat - 48 : Nat) : Int)) 0
  let cs := s.dropWhile (fun c =>
    c == ' ' || c == '\t' || c == '\n' || c == '\x0b' || c == '\x0c' ||
    c == '\r')
  match cs with
  | '-' :: rest => -(digitsVal (rest.takeWhile Char.isDigit))
  | '+' :: rest => digitsVal (rest.takeWhile Char.isDigit)
  | _ => digitsVal (cs.takeWhile Char.isDigit)

/-- Conversion of a C `int` to `size_t` (the type of `elem_size` /
`elem_count` locals in `plc_tag_create`): reduction modulo 2^64. -/
def intToSize (i : Int) : Nat := (i % (2 ^ 64 : Nat)).toNat

/-- Split on `&`, accumulating the current token (reversed). -/
def splitOnAmp : List Char → List Char → List (List Char)
  | [], acc => [acc.reverse]
  | c :: rest, acc =>
    if c == '&' then acc.reverse :: splitOnAmp rest []
    else splitOnAmp rest (c :: acc)

/-- Model of `strtok_r` over `"&"`: consecutive, leading and trailing separators
yield no empty tokens. -/
def tokenize (s : String) : List (List Char) :=
  (splitOnAmp s.toList []).filter (fun t => !t.isEmpty)

/-- The key of a `key=value` token: everything before the first `=`
(`strchr(key, '=')`); the whole token when there is no `=`. -/
def kvKey (kv : List Char) : List Char := kv.takeWhile (fun c => !(c == '='))

/-- The value of a `key=value` token: everything after the first `=`. -/
def kvVal (kv : List Char) : List Char := kv.drop ((kvKey kv).length + 1)

/-- Parser state of `plc_tag_create`'s token loop: the `name` pointer
(NULL until a `name=` token is seen) and the `elem_size` / `elem_count`
locals with their initial defaults 2 and 1. -/
structure ParseState where
  name : Option (List Char)
  elem_size : Nat
  elem_count : Nat
  deriving DecidableEq, Repr

/-- Outcome of the token loop: normal state, the `BAD_PARAM` early exit, or
the undefined behaviour `*val = '\0'` executes with `val == NULL` (reached
for a bare `protocol` token, which skips the error branch but not the
dereference). -/
inductive ParseResult where
  | ok (ps : ParseState)
  | badParam
  | crash
  deriving DecidableEq, Repr

/-- One iteration of the `strtok_r` loop in `plc_tag_create`
(src/src/plcstub.c:181-219).  `val = strchr(key, '=')`; a token without `=`
that is not `protocol` exits with `BAD_PARAM`; a bare `protocol` token falls
through to `*val = '\0'` with `val == NULL` (crash); otherwise the key
selects which local to overwrite (`elem_size`/`elem_count` via `atoi`,
`name` as a pointer into the token), unknown keys being ignored. -/
def parseStep : ParseResult → List Char → ParseResult
  | ParseResult.badParam, _ => ParseResult.badParam
  | ParseResult.crash, _ => ParseResult.crash
  | ParseResult.ok ps, kv =>
    if (kvKey kv).length = kv.length then
      if kv = "protocol".toList then ParseResult.crash
      else ParseResult.badParam
    else
      if kvKey kv = "name".toList then
        ParseResult.ok { ps with name := some (kvVal kv) }
      else if kvKey kv = "elem_size".toList then
        ParseResult.ok { ps with elem_size := intToSize (atoiChars (kvVal kv)) }
      else if kvKey kv = "elem_count".toList then
        ParseResult.ok { ps with elem_count := intToSize (atoiChars (kvVal kv)) }
      else ParseResult.ok ps

/-- The whole token loop, from the initial defaults. -/
def parseLoop (toks : List (List Char)) : ParseResult :=
  toks.foldl parseStep
    (ParseResult.ok { name := none, elem_size := 2, elem_count := 1 })

/-- Outcome of `plc_tag_create`: the returned `int` with the registry after
the call, or the crash from the NULL dereference in the token loop. -/
inductive CreateResult where
  | ret (code : Int) (reg : List TagNode)
  | crash
  deriving DecidableEq, Repr

/-- Model of `plc_tag_create` (src/src/plcstub.c:158-250).  Parses the attribute
string; on success requires `name`, then calls `tag_tree_create_node` and
fills the node's fields under its lock.  Note two faithful details: the
source executes `tag->tag_id = ret` where `ret` still holds
`PLCTAG_STATUS_OK` — overwriting the id the node was created with — and
ends with `return ret`, so the function returns `PLCTAG_STATUS_OK`, not the
allocated id.  The registry update replaces the node `tag_tree_create_node`
just appended (mutation through the returned pointer). -/
def plc_tag_create (reg : List TagNode) (attrib : String) (timeout : Int) :
    CreateResult :=
  match parseLoop (tokenize attrib) with
  | ParseResult.crash => CreateResult.crash
  | ParseResult.badParam => CreateResult.ret PLCTAG_ERR_BAD_PARAM reg
  | ParseResult.ok ps =>
    match ps.name with
    | none => CreateResult.ret PLCTAG_ERR_BAD_PARAM reg
    | some nm =>
      let created := tag_tree_create_node reg
      let tag :=
        { created.fst with
          name := "DUMMY_AQUA_DATA_" ++ String.mk nm
          tag_id := PLCTAG_STATUS_OK
          elem_count := ps.elem_count
          elem_size := ps.elem_size
          data := List.replicate (ps.elem_count * ps.elem_size) 0 }
      CreateResult.ret PLCTAG_STATUS_OK (created.snd.dropLast ++ [tag])

/-! Section: Remaining public operations -/

/-- Model of `plc_tag_read` (src/src/plcstub.c:257-284): negative timeout is
`BAD_PARAM`; unknown tag is `NOT_FOUND`; otherwise fires `READ_STARTED`
then `READ_COMPLETED` (when a callback is registered) and returns OK. -/
def plc_tag_read (reg : List TagNode) (tag_id : Int) (timeout : Int) :
    Int × List Action :=
  if timeout < 0 then (PLCTAG_ERR_BAD_PARAM, [])
  else
    match tag_tree_lookup reg tag_id with
    | none => (PLCTAG_ERR_NOT_FOUND, [])
    | some t =>
      if t.cb then
        (PLCTAG_STATUS_OK,
         [Action.cb tag_id Event.readStarted PLCTAG_STATUS_OK,
          Action.cb tag_id Event.readCompleted PLCTAG_STATUS_OK])
      else (PLCTAG_STATUS_OK, [])

/-- Model of `plc_tag_register_callback` (src/src/plcstub.c:286-302): unknown tag is
`NOT_FOUND`; otherwise stores the handler (its presence) under the node
lock and returns OK. -/
def plc_tag_register_callback (reg : List TagNode) (tag_id : Int)
    (cb : Bool) : Int × List TagNode :=
  match tag_tree_lookup reg tag_id with
  | none => (PLCTAG_ERR_NOT_FOUND, reg)
  | some _ =>
    (PLCTAG_STATUS_OK, tag_tree_update reg tag_id (fun t => { t with cb := cb }))

/-- Model of `plc_tag_unregister_callback` (src/src/plcstub.c:328-332): literally
`plc_tag_register_callback(tag_id, NULL)`. -/
def plc_tag_unregister_callback (reg : List TagNode) (tag_id : Int) :
    Int × List TagNode :=
  plc_tag_register_callback reg tag_id false

/-! Section: Trace helpers -/

/-- The callback invocations of a trace. -/
def cbActions (tr : List Action) : List Action :=
  tr.filter (fun a =>
    match a with
    | Action.cb _ _ _ => true
    | _ => false)

/-- Number of callback invocations with the given event and status. -/
def countCb (tr : List Action) (ev : Event) (st : Int) : Nat :=
  (tr.filter (fun a =>
    match a with
    | Action.cb _ e s => e == ev && s == st
    | _ => false)).length

/-- Number of callback invocations with the given event. -/
def countEv (tr : List Action) (ev : Event) : Nat :=
  (tr.filter (fun a =>
    match a with
    | Action.cb _ e _ => e == ev
    | _ => false)).length

end PlcStub

namespace PlcStub

/-! Section: Concrete fixtures used by the claim theorems -/

/-- A registry node as `create("name=T&elem_size=4&elem_count=10")` intends:
id 1, a 40-byte zero buffer, no callback registered. -/
def sampleNode : TagNode :=
  { tag_id := 1, name := "DUMMY_AQUA_DATA_T", elem_size := 4,
    elem_count := 10, data := List.replicate 40 0, cb := false }

/-- The node `sampleNode` with a callback handler registered. -/
def sampleNodeCb : TagNode := { sampleNode with cb := true }

/-- The node `plc_tag_create [] "name=Foo&elem_size=4&elem_count=10" 0`
actually produces (note `tag_id = PLCTAG_STATUS_OK`, the clobbered id). -/
def fooNode : TagNode :=
  { tag_id := PLCTAG_STATUS_OK, name := "DUMMY_AQUA_DATA_Foo", elem_size := 4,
    elem_count := 10, data := List.replicate 40 0, cb := false }

/-- The node a subsequent `plc_tag_create _ "name=Bar" 0` produces
(defaults `elem_size = 2`, `elem_count = 1`). -/
def barNode : TagNode :=
  { tag_id := PLCTAG_STATUS_OK, name := "DUMMY_AQUA_DATA_Bar", elem_size := 2,
    elem_count := 1, data := List.replicate 2 0, cb := false }

/-- The node `plc_tag_create [] "name=F&elem_size=0" 0` produces: the
supplied zero `elem_size` is stored unvalidated, yielding an empty buffer. -/
def nodeF : TagNode :=
  { tag_id := PLCTAG_STATUS_OK, name := "DUMMY_AQUA_DATA_F", elem_size := 0,
    elem_count := 1, data := [], cb := false }

/-- A token that keeps the element sizes positive: either it has no `=`, or
its key is neither `elem_size` nor `elem_count`, or its supplied value
parses (via `atoi` and the `size_t` conversion) to a positive number. -/
def tokElemOK (kv : List Char) : Bool :=
  if (kvKey kv).length = kv.length then true
  else if kvKey kv = "elem_size".toList ∨ kvKey kv = "elem_count".toList then
    decide (0 < intToSize (atoiChars (kvVal kv)))
  else true

end PlcStub

namespace PlcStub

/-- C1: the claim states that `get<T>` after `set<T>(id, offset, v)` returns
`v`.  On the source this fails: `plcstub_set_impl` passes `&value` (the
address of its pointer variable) to the setter callback, so the bytes
written are the low `sizeof(T)` bytes of the stack address of the caller's
`val` local, not of `v`.  Concretely, with tag 1 (4 × 10 bytes) and the
local at address `0x7ffe4a3b2c10`, `set<uint32>(1, 0, 0xDEADBEEF)` succeeds
but the following `get<uint32>(1, 0)` returns `0x4a3b2c10 ≠ 0xDEADBEEF`. -/
theorem set_then_get_writes_pointer_bytes :
    (plc_tag_set_typed 4 [sampleNode] 1 0 0xDEADBEEF 0x7ffe4a3b2c10).ret =
      PLCTAG_STATUS_OK ∧
    (plc_tag_get_typed 4
      (plc_tag_set_typed 4 [sampleNode] 1 0 0xDEADBEEF 0x7ffe4a3b2c10).reg
      1 0 0).fst = 0x4a3b2c10 ∧
    (0x4a3b2c10 : Nat) ≠ 0xDEADBEEF := by
  refine ⟨rfl, rfl, by decide⟩

/-- C2: the claim states that each successful create returns the allocated
id (max+1; 1 then 2 for the first two creates).  On the source this fails:
`plc_tag_create` executes `tag->tag_id = ret` and `return ret` with `ret`
still `PLCTAG_STATUS_OK`, so both creates return `PLCTAG_STATUS_OK` (not 1
and then 2), and the stored node id is `PLCTAG_STATUS_OK` as well, even
though the id the registry allocated for the first node was 1. -/
theorem create_returns_status_ok_not_allocated_id :
    plc_tag_create [] "name=Foo&elem_size=4&elem_count=10" 0 =
      CreateResult.ret PLCTAG_STATUS_OK [fooNode] ∧
    plc_tag_create [fooNode] "name=Bar" 0 =
      CreateResult.ret PLCTAG_STATUS_OK [fooNode, barNode] ∧
    tag_tree_next_id [] = 1 ∧
    PLCTAG_STATUS_OK ≠ (1 : Int) ∧
    PLCTAG_STATUS_OK ≠ (2 : Int) ∧
    fooNode.tag_id ≠ 1 := by
  refine ⟨by decide, by decide, by decide, by decide, by decide, by decide⟩

/-- C3: the claim states that every `get<T>`/`set<T>` releases the node lock
on every exit path, including the out-of-bounds `BadParam` path.  On the
source this fails: both impls return `PLCTAG_ERR_BAD_PARAM` before reaching
`MTX_UNLOCK`, so at offset 40 on a 40-byte tag the trace acquires the lock
once and never releases it. -/
theorem oob_path_leaks_node_lock :
    (plcstub_get_impl [sampleNodeCb] 1 40 (plcstub_typed_getter_cb 4)).ret =
      PLCTAG_ERR_BAD_PARAM ∧
    (plcstub_get_impl [sampleNodeCb] 1 40
      (plcstub_typed_getter_cb 4)).trace.count Action.lock = 1 ∧
    (plcstub_get_impl [sampleNodeCb] 1 40
      (plcstub_typed_getter_cb 4)).trace.count Action.unlock = 0 ∧
    (plc_tag_set_typed 4 [sampleNodeCb] 1 40 0 0).ret =
      PLCTAG_ERR_BAD_PARAM ∧
    (plc_tag_set_typed 4 [sampleNodeCb] 1 40 0 0).trace.count
      Action.lock = 1 ∧
    (plc_tag_set_typed 4 [sampleNodeCb] 1 40 0 0).trace.count
      Action.unlock = 0 := by
  refine ⟨by decide, by decide, by decide, by decide, by decide, by decide⟩

/-- C4: the claim states that a bare `protocol` token is ignored and create
proceeds.  On the source this fails: the error branch is skipped for
`protocol`, but control then falls through to `*val = '\0'` with
`val == NULL`, dereferencing a null pointer. -/
theorem bare_protocol_token_crashes_create :
    plc_tag_create [] "protocol&name=Foo" 0 = CreateResult.crash ∧
    plc_tag_create [] "name=Foo&protocol" 0 = CreateResult.crash := by
  refine ⟨by decide, by decide⟩

end PlcStub

namespace PlcStub

/-- C5: on any existing tag, an access at
`offset >= elem_count * elem_size` returns `PLCTAG_ERR_BAD_PARAM` from both
the get and the set path, unconditionally; the trace carries exactly one
`ABORTED` callback event with `PLCTAG_ERR_BAD_PARAM` when a callback is
registered (none otherwise) and never a completion event. -/
theorem oob_access_fails_badparam_with_single_abort
    (reg : List TagNode) (tag : Int) (t : TagNode) (offset : Int)
    (n v addr : Nat)
    (h : tag_tree_lookup reg tag = some t)
    (hoob : ((t.elem_count * t.elem_size : Nat) : Int) ≤ offset) :
    (plcstub_get_impl reg tag offset (plcstub_typed_getter_cb n)).ret =
      PLCTAG_ERR_BAD_PARAM ∧
    countCb (plcstub_get_impl reg tag offset
      (plcstub_typed_getter_cb n)).trace Event.aborted PLCTAG_ERR_BAD_PARAM
      = (if t.cb then 1 else 0) ∧
    countEv (plcstub_get_impl reg tag offset
      (plcstub_typed_getter_cb n)).trace Event.readCompleted = 0 ∧
    countEv (plcstub_get_impl reg tag offset
      (plcstub_typed_getter_cb n)).trace Event.writeCompleted = 0 ∧
    (plc_tag_set_typed n reg tag offset v addr).ret = PLCTAG_ERR_BAD_PARAM ∧
    countCb (plc_tag_set_typed n reg tag offset v addr).trace
      Event.aborted PLCTAG_ERR_BAD_PARAM = (if t.cb then 1 else 0) ∧
    countEv (plc_tag_set_typed n reg tag offset v addr).trace
      Event.readCompleted = 0 ∧
    countEv (plc_tag_set_typed n reg tag offset v addr).trace
      Event.writeCompleted = 0 := by
  have hoob' : (t.elem_count : Int) * (t.elem_size : Int) ≤ offset := by
    exact_mod_cast hoob
  cases hcb : t.cb with
  | true =>
    have hget :
        plcstub_get_impl reg tag offset (plcstub_typed_getter_cb n) =
          { ret := PLCTAG_ERR_BAD_PARAM
            trace := [Action.lock,
              Action.cb tag Event.readStarted PLCTAG_STATUS_OK,
              Action.cb tag Event.aborted PLCTAG_ERR_BAD_PARAM]
            out := none } := by
      simp [plcstub_get_impl, h, hcb, hoob']
    have hset :
        plc_tag_set_typed n reg tag offset v addr =
          { ret := PLCTAG_ERR_BAD_PARAM
            reg := reg
            trace := [Action.lock,
              Action.cb tag Event.writeStarted PLCTAG_STATUS_OK,
              Action.cb tag Event.aborted PLCTAG_ERR_BAD_PARAM] } := by
      simp [plc_tag_set_typed, plcstub_set_impl, h, hcb, hoob']
    rw [hget, hset]
    exact ⟨rfl, rfl, rfl, rfl, rfl, rfl, rfl, rfl⟩
  | false =>
    have hget :
        plcstub_get_impl reg tag offset (plcstub_typed_getter_cb n) =
          { ret := PLCTAG_ERR_BAD_PARAM
            trace := [Action.lock]
            out := none } := by
      simp [plcstub_get_impl, h, hcb, hoob']
    have hset :
        plc_tag_set_typed n reg tag offset v addr =
          { ret := PLCTAG_ERR_BAD_PARAM
            reg := reg
            trace := [Action.lock] } := by
      simp [plc_tag_set_typed, plcstub_set_impl, h, hcb, hoob']
    rw [hget, hset]
    exact ⟨rfl, rfl, rfl, rfl, rfl, rfl, rfl, rfl⟩

/-- Witness for C5: tag 1 of `[sampleNodeCb]` (40 bytes, callback
registered) accessed at offset 40. -/
theorem oob_access_fails_badparam_with_single_abort_witness :
    tag_tree_lookup [sampleNodeCb] 1 = some sampleNodeCb ∧
    ((sampleNodeCb.elem_count * sampleNodeCb.elem_size : Nat) : Int) ≤ 40 ∧
    ((plcstub_get_impl [sampleNodeCb] 1 40 (plcstub_typed_getter_cb 4)).ret =
      PLCTAG_ERR_BAD_PARAM ∧
     countCb (plcstub_get_impl [sampleNodeCb] 1 40
       (plcstub_typed_getter_cb 4)).trace Event.aborted PLCTAG_ERR_BAD_PARAM
       = (if sampleNodeCb.cb then 1 else 0) ∧
     countEv (plcstub_get_impl [sampleNodeCb] 1 40
       (plcstub_typed_getter_cb 4)).trace Event.readCompleted = 0 ∧
     countEv (plcstub_get_impl [sampleNodeCb] 1 40
       (plcstub_typed_getter_cb 4)).trace Event.writeCompleted = 0 ∧
     (plc_tag_set_typed 4 [sampleNodeCb] 1 40 7 0).ret =
       PLCTAG_ERR_BAD_PARAM ∧
     countCb (plc_tag_set_typed 4 [sampleNodeCb] 1 40 7 0).trace
       Event.aborted PLCTAG_ERR_BAD_PARAM =
       (if sampleNodeCb.cb then 1 else 0) ∧
     countEv (plc_tag_set_typed 4 [sampleNodeCb] 1 40 7 0).trace
       Event.readCompleted = 0 ∧
     countEv (plc_tag_set_typed 4 [sampleNodeCb] 1 40 7 0).trace
       Event.writeCompleted = 0) :=
  ⟨rfl, by decide,
   oob_access_fails_badparam_with_single_abort [sampleNodeCb] 1 sampleNodeCb
     40 4 7 0 rfl (by decide)⟩

/-- C6 counterexample: the claim states that `get<T>` on an unknown id
reports the failure to the caller rather than returning an arbitrary
value.  The public getter returns its uninitialized local unchanged and
discards the impl's status: at tag 7 of the empty registry the result is
whatever the indeterminate initial contents of that local were (5 gives 5,
9 gives 9), with no failure indication in the returned value. -/
theorem get_unknown_tag_returns_uninitialized_value :
    (plc_tag_get_typed 4 [] 7 0 5).fst = 5 ∧
    (plc_tag_get_typed 4 [] 7 0 9).fst = 9 ∧
    (plc_tag_get_typed 4 [] 7 0 5).fst ≠ (plc_tag_get_typed 4 [] 7 0 9).fst
    := by
  refine ⟨rfl, rfl, by decide⟩

/-- C6 (amended): `plcstub_get_impl` does fail with `PLCTAG_ERR_NOT_FOUND`
on an unknown id, invoking nothing, but the public typed getter discards
that status and hands back its uninitialized local. -/
theorem get_impl_unknown_tag_not_found
    (reg : List TagNode) (id offset : Int) (n g : Nat)
    (h : tag_tree_lookup reg id = none) :
    (plcstub_get_impl reg id offset (plcstub_typed_getter_cb n)).ret =
      PLCTAG_ERR_NOT_FOUND ∧
    plc_tag_get_typed n reg id offset g = (g, []) := by
  constructor <;> simp [plcstub_get_impl, plc_tag_get_typed, h]

/-- Witness for the amended C6: tag 7 of the empty registry. -/
theorem get_impl_unknown_tag_not_found_witness :
    tag_tree_lookup ([] : List TagNode) 7 = none ∧
    ((plcstub_get_impl [] 7 0 (plcstub_typed_getter_cb 4)).ret =
      PLCTAG_ERR_NOT_FOUND ∧
     plc_tag_get_typed 4 [] 7 0 5 = (5, [])) :=
  ⟨rfl, get_impl_unknown_tag_not_found [] 7 0 4 5 rfl⟩

/-- C8: on an existing tag with a registered callback and a non-negative
timeout, `plc_tag_read` returns OK and its callback trace is exactly
`[READ_STARTED, READ_COMPLETED]`, in that order, once each, delivered
synchronously within the call. -/
theorem read_fires_started_then_completed
    (reg : List TagNode) (tag_id : Int) (t : TagNode) (timeout : Int)
    (h : tag_tree_lookup reg tag_id = some t)
    (hcb : t.cb = true)
    (ht : 0 ≤ timeout) :
    plc_tag_read reg tag_id timeout =
      (PLCTAG_STATUS_OK,
       [Action.cb tag_id Event.readStarted PLCTAG_STATUS_OK,
        Action.cb tag_id Event.readCompleted PLCTAG_STATUS_OK]) := by
  have hne : ¬ timeout < 0 := not_lt.mpr ht
  simp [plc_tag_read, hne, h, hcb]

/-- Witness for C8: tag 1 of `[sampleNodeCb]`, timeout 0. -/
theorem read_fires_started_then_completed_witness :
    tag_tree_lookup [sampleNodeCb] 1 = some sampleNodeCb ∧
    sampleNodeCb.cb = true ∧
    (0 : Int) ≤ 0 ∧
    plc_tag_read [sampleNodeCb] 1 0 =
      (PLCTAG_STATUS_OK,
       [Action.cb 1 Event.readStarted PLCTAG_STATUS_OK,
        Action.cb 1 Event.readCompleted PLCTAG_STATUS_OK]) :=
  ⟨rfl, rfl, le_refl 0,
   read_fires_started_then_completed [sampleNodeCb] 1 sampleNodeCb 0 rfl rfl
     (le_refl 0)⟩

end PlcStub

namespace PlcStub

/-! Section: Helper lemmas for the parsing invariant (claim C7) -/

/-- Once the token loop has exited with `BAD_PARAM`, further tokens change
nothing. -/
theorem foldl_parseStep_badParam (l : List (List Char)) :
    List.foldl parseStep ParseResult.badParam l = ParseResult.badParam := by
  induction l with
  | nil => rfl
  | cons a l ih => rw [List.foldl_cons]; exact ih

/-- Once the token loop has crashed, further tokens change nothing. -/
theorem foldl_parseStep_crash (l : List (List Char)) :
    List.foldl parseStep ParseResult.crash l = ParseResult.crash := by
  induction l with
  | nil => rfl
  | cons a l ih => rw [List.foldl_cons]; exact ih

/-- One parsing step preserves positivity of the element sizes on tokens
satisfying `tokElemOK`. -/
theorem parseStep_ok_pos (ps ps' : ParseState) (kv : List Char)
    (hok : tokElemOK kv = true)
    (hs : 0 < ps.elem_size) (hc : 0 < ps.elem_count)
    (h : parseStep (ParseResult.ok ps) kv = ParseResult.ok ps') :
    0 < ps'.elem_size ∧ 0 < ps'.elem_count := by
  simp only [parseStep] at h
  unfold tokElemOK at hok
  by_cases h1 : (kvKey kv).length = kv.length
  · rw [if_pos h1] at h
    by_cases h2 : kv = "protocol".toList
    · rw [if_pos h2] at h; exact ParseResult.noConfusion h
    · rw [if_neg h2] at h; exact ParseResult.noConfusion h
  · rw [if_neg h1] at h
    rw [if_neg h1] at hok
    by_cases hn : kvKey kv = "name".toList
    · rw [if_pos hn, ParseResult.ok.injEq] at h
      subst h
      exact ⟨hs, hc⟩
    · rw [if_neg hn] at h
      by_cases hsz : kvKey kv = "elem_size".toList
      · rw [if_pos hsz, ParseResult.ok.injEq] at h
        rw [if_pos (Or.inl hsz)] at hok
        subst h
        exact ⟨of_decide_eq_true hok, hc⟩
      · rw [if_neg hsz] at h
        by_cases hct : kvKey kv = "elem_count".toList
        · rw [if_pos hct, ParseResult.ok.injEq] at h
          rw [if_pos (Or.inr hct)] at hok
          subst h
          exact ⟨hs, of_decide_eq_true hok⟩
        · rw [if_neg hct, ParseResult.ok.injEq] at h
          subst h
          exact ⟨hs, hc⟩

/-- The whole token loop preserves positivity of the element sizes when
every token satisfies `tokElemOK`. -/
theorem parseLoop_ok_pos (toks : List (List Char)) (ps ps' : ParseState)
    (hall : toks.all tokElemOK = true)
    (hs : 0 < ps.elem_size) (hc : 0 < ps.elem_count)
    (h : List.foldl parseStep (ParseResult.ok ps) toks = ParseResult.ok ps') :
    0 < ps'.elem_size ∧ 0 < ps'.elem_count := by
  induction toks generalizing ps with
  | nil =>
    rw [List.foldl_nil, ParseResult.ok.injEq] at h
    subst h; exact ⟨hs, hc⟩
  | cons kv rest ih =>
    rw [List.all_cons, Bool.and_eq_true] at hall
    rw [List.foldl_cons] at h
    cases hstep : parseStep (ParseResult.ok ps) kv with
    | badParam =>
      rw [hstep, foldl_parseStep_badParam] at h
      exact ParseResult.noConfusion h
    | crash =>
      rw [hstep, foldl_parseStep_crash] at h
      exact ParseResult.noConfusion h
    | ok ps1 =>
      rw [hstep] at h
      obtain ⟨h1, h2⟩ := parseStep_ok_pos ps ps1 kv hall.1 hs hc hstep
      exact ih ps1 hall.2 h1 h2 h

/-- C7 counterexample: the claim states every successfully created node has
`element_size > 0` even when the attribute string supplies zero.  On the
source, `create("name=F&elem_size=0")` succeeds and stores
`element_size = 0` (an `atoi` result assigned without validation). -/
theorem create_accepts_zero_elem_size :
    plc_tag_create [] "name=F&elem_size=0" 0 =
      CreateResult.ret PLCTAG_STATUS_OK [nodeF] ∧
    ¬ 0 < nodeF.elem_size := by
  refine ⟨by decide, by decide⟩

/-- C7 (amended): a successful create appends exactly one node, and that
node's `element_size` and `element_count` are positive provided every
supplied `elem_size`/`elem_count` attribute value parses to a positive
number (the defaults 2 and 1 cover omission). -/
theorem create_positive_sizes_when_supplied_positive
    (reg : List TagNode) (attrib : String) (timeout : Int)
    (reg' : List TagNode) (t : TagNode)
    (hall : (tokenize attrib).all tokElemOK = true)
    (h : plc_tag_create reg attrib timeout =
      CreateResult.ret PLCTAG_STATUS_OK reg')
    (ht : reg'.getLast? = some t) :
    reg' = reg ++ [t] ∧ 0 < t.elem_size ∧ 0 < t.elem_count := by
  unfold plc_tag_create at h
  split at h
  · exact CreateResult.noConfusion h
  · rw [CreateResult.ret.injEq] at h
    exact absurd h.1 (by decide)
  · rename_i ps hp
    split at h
    · rw [CreateResult.ret.injEq] at h
      exact absurd h.1 (by decide)
    · rename_i nm hn
      have hps : 0 < ps.elem_size ∧ 0 < ps.elem_count := by
        unfold parseLoop at hp
        exact parseLoop_ok_pos (tokenize attrib) _ ps hall (by decide)
          (by decide) hp
      rw [CreateResult.ret.injEq] at h
      obtain ⟨-, hr⟩ := h
      have hdl : (tag_tree_create_node reg).2.dropLast = reg := by
        simp [tag_tree_create_node]
      rw [hdl] at hr
      subst hr
      rw [List.getLast?_concat, Option.some.injEq] at ht
      subst ht
      exact ⟨rfl, hps.1, hps.2⟩

/-- Witness for the amended C7: `create("name=Foo&elem_size=4&elem_count=10")`
on the empty registry. -/
theorem create_positive_sizes_when_supplied_positive_witness :
    (tokenize "name=Foo&elem_size=4&elem_count=10").all tokElemOK = true ∧
    plc_tag_create [] "name=Foo&elem_size=4&elem_count=10" 0 =
      CreateResult.ret PLCTAG_STATUS_OK [fooNode] ∧
    [fooNode].getLast? = some fooNode ∧
    ([fooNode] = [] ++ [fooNode] ∧ 0 < fooNode.elem_size ∧
     0 < fooNode.elem_count) :=
  ⟨by decide, by decide, rfl,
   create_positive_sizes_when_supplied_positive []
     "name=Foo&elem_size=4&elem_count=10" 0 [fooNode] fooNode
     (by decide) (by decide) rfl⟩

end PlcStub

namespace PlcStub

/-! Section: Helper lemmas for callback (un)registration (claim C9) -/

/-- Updating a node through a field-preserving function keeps it findable
under the same id. -/
theorem tag_tree_lookup_update_self (reg : List TagNode) (id : Int)
    (f : TagNode → TagNode) (hf : ∀ u, (f u).tag_id = u.tag_id) :
    tag_tree_lookup (tag_tree_update reg id f) id =
      (tag_tree_lookup reg id).map f := by
  induction reg with
  | nil => rfl
  | cons a rest ih =>
    by_cases h : (a.tag_id == id) = true
    · have h2 : ((f a).tag_id == id) = true := by
        rw [beq_iff_eq] at h ⊢
        rw [hf a]
        exact h
      simp only [tag_tree_update]
      rw [if_pos h]
      simp only [tag_tree_lookup]
      rw [if_pos h2, if_pos h]
      rfl
    · simp only [tag_tree_update]
      rw [if_neg h]
      simp only [tag_tree_lookup]
      rw [if_neg h, if_neg h]
      exact ih

/-- A get on a tag without a registered callback invokes no callbacks. -/
theorem cbActions_get_impl_no_cb (reg : List TagNode) (id offset : Int)
    (fn : List Nat → Int → List Nat) (t : TagNode)
    (h : tag_tree_lookup reg id = some t) (hcb : t.cb = false) :
    cbActions (plcstub_get_impl reg id offset fn).trace = [] := by
  by_cases hb : (t.elem_count : Int) * (t.elem_size : Int) ≤ offset <;>
    simp [plcstub_get_impl, h, hcb, hb, cbActions]

/-- A set on a tag without a registered callback invokes no callbacks. -/
theorem cbActions_set_typed_no_cb (reg : List TagNode) (id offset : Int)
    (n v addr : Nat) (t : TagNode)
    (h : tag_tree_lookup reg id = some t) (hcb : t.cb = false) :
    cbActions (plc_tag_set_typed n reg id offset v addr).trace = [] := by
  by_cases hb : (t.elem_count : Int) * (t.elem_size : Int) ≤ offset <;>
    simp [plc_tag_set_typed, plcstub_set_impl, h, hcb, hb, cbActions]

/-- A read on a tag without a registered callback invokes no callbacks. -/
theorem cbActions_read_no_cb (reg : List TagNode) (id timeout : Int)
    (t : TagNode)
    (h : tag_tree_lookup reg id = some t) (hcb : t.cb = false) :
    cbActions (plc_tag_read reg id timeout).snd = [] := by
  by_cases htm : timeout < 0 <;>
    simp [plc_tag_read, htm, h, hcb, cbActions]

/-- C9: `plc_tag_unregister_callback` is exactly
`plc_tag_register_callback(id, NULL)` (definitional in the source); on an
existing tag it returns OK, leaves the node with its callback cleared, and
subsequent get/set/read operations on that tag invoke zero callbacks. -/
theorem unregister_is_register_none
    (reg : List TagNode) (tag_id : Int) (t : TagNode) (offset : Int)
    (n v addr : Nat) (timeout : Int)
    (h : tag_tree_lookup reg tag_id = some t) :
    plc_tag_unregister_callback reg tag_id =
      plc_tag_register_callback reg tag_id false ∧
    (plc_tag_unregister_callback reg tag_id).fst = PLCTAG_STATUS_OK ∧
    tag_tree_lookup (plc_tag_unregister_callback reg tag_id).snd tag_id =
      some { t with cb := false } ∧
    cbActions (plcstub_get_impl (plc_tag_unregister_callback reg tag_id).snd
      tag_id offset (plcstub_typed_getter_cb n)).trace = [] ∧
    cbActions (plc_tag_set_typed n
      (plc_tag_unregister_callback reg tag_id).snd
      tag_id offset v addr).trace = [] ∧
    cbActions (plc_tag_read (plc_tag_unregister_callback reg tag_id).snd
      tag_id timeout).snd = [] := by
  have hu : plc_tag_unregister_callback reg tag_id =
      (PLCTAG_STATUS_OK,
       tag_tree_update reg tag_id (fun u => { u with cb := false })) := by
    simp [plc_tag_unregister_callback, plc_tag_register_callback, h]
  have hl : tag_tree_lookup
      (tag_tree_update reg tag_id (fun u => { u with cb := false })) tag_id =
      some { t with cb := false } := by
    rw [tag_tree_lookup_update_self reg tag_id
      (fun u => { u with cb := false }) (fun u => rfl), h]
    rfl
  refine ⟨rfl, ?_, ?_, ?_, ?_, ?_⟩
  · rw [hu]
  · rw [hu]; exact hl
  · rw [hu]
    exact cbActions_get_impl_no_cb _ _ _ _ _ hl rfl
  · rw [hu]
    exact cbActions_set_typed_no_cb _ _ _ _ _ _ _ hl rfl
  · rw [hu]
    exact cbActions_read_no_cb _ _ _ _ hl rfl

/-- Witness for C9: tag 1 of `[sampleNodeCb]`, with a subsequent get, set
and read at offset 0 / timeout 0. -/
theorem unregister_is_register_none_witness :
    tag_tree_lookup [sampleNodeCb] 1 = some sampleNodeCb ∧
    (plc_tag_unregister_callback [sampleNodeCb] 1 =
      plc_tag_register_callback [sampleNodeCb] 1 false ∧
    (plc_tag_unregister_callback [sampleNodeCb] 1).fst = PLCTAG_STATUS_OK ∧
    tag_tree_lookup (plc_tag_unregister_callback [sampleNodeCb] 1).snd 1 =
      some { sampleNodeCb with cb := false } ∧
    cbActions (plcstub_get_impl
      (plc_tag_unregister_callback [sampleNodeCb] 1).snd
      1 0 (plcstub_typed_getter_cb 4)).trace = [] ∧
    cbActions (plc_tag_set_typed 4
      (plc_tag_unregister_callback [sampleNodeCb] 1).snd
      1 0 7 0).trace = [] ∧
    cbActions (plc_tag_read (plc_tag_unregister_callback [sampleNodeCb] 1).snd
      1 0).snd = []) :=
  ⟨rfl, unregister_is_register_none [sampleNodeCb] 1 sampleNodeCb 0 4 7 0 0
    rfl⟩

/-- C10: the bounds check compares only the starting offset with
`elem_count * elem_size`; for any access width `n > 1` the offset
`elem_count * elem_size - 1` is strictly below the bound, so both accessors
pass the check and proceed (status OK), yet the accessed byte range
`[offset, offset + n)` extends past the end of the tag's buffer. -/
theorem bounds_check_ignores_access_width
    (reg : List TagNode) (tag : Int) (t : TagNode) (n v addr : Nat)
    (h : tag_tree_lookup reg tag = some t)
    (hn : 1 < n)
    (hpos : 0 < t.elem_count * t.elem_size)
    (hlen : t.data.length = t.elem_count * t.elem_size) :
    ¬ ((t.elem_count * t.elem_size : Nat) : Int) ≤
        ((t.elem_count * t.elem_size : Nat) : Int) - 1 ∧
    (plcstub_get_impl reg tag
      (((t.elem_count * t.elem_size : Nat) : Int) - 1)
      (plcstub_typed_getter_cb n)).ret = PLCTAG_STATUS_OK ∧
    (plc_tag_set_typed n reg tag
      (((t.elem_count * t.elem_size : Nat) : Int) - 1) v addr).ret =
      PLCTAG_STATUS_OK ∧
    t.data.length <
      ((((t.elem_count * t.elem_size : Nat) : Int) - 1).toNat + n) := by
  have hb : ¬ ((t.elem_count * t.elem_size : Nat) : Int) ≤
      ((t.elem_count * t.elem_size : Nat) : Int) - 1 := by omega
  refine ⟨hb, ?_, ?_, ?_⟩
  · simp only [plcstub_get_impl, h]
    rw [if_neg hb]
  · simp only [plc_tag_set_typed, plcstub_set_impl, h]
    rw [if_neg hb]
  · omega

/-- Witness for C10: tag 1 of `[sampleNode]` (40-byte buffer) accessed with
a 4-byte type at offset 39: the check passes but bytes 39..42 are read. -/
theorem bounds_check_ignores_access_width_witness :
    tag_tree_lookup [sampleNode] 1 = some sampleNode ∧
    (1 : Nat) < 4 ∧
    0 < sampleNode.elem_count * sampleNode.elem_size ∧
    sampleNode.data.length = sampleNode.elem_count * sampleNode.elem_size ∧
    (¬ ((sampleNode.elem_count * sampleNode.elem_size : Nat) : Int) ≤
        ((sampleNode.elem_count * sampleNode.elem_size : Nat) : Int) - 1 ∧
     (plcstub_get_impl [sampleNode] 1
       (((sampleNode.elem_count * sampleNode.elem_size : Nat) : Int) - 1)
       (plcstub_typed_getter_cb 4)).ret = PLCTAG_STATUS_OK ∧
     (plc_tag_set_typed 4 [sampleNode] 1
       (((sampleNode.elem_count * sampleNode.elem_size : Nat) : Int) - 1)
       7 0).ret = PLCTAG_STATUS_OK ∧
     sampleNode.data.length <
       ((((sampleNode.elem_count * sampleNode.elem_size : Nat) : Int)
         - 1).toNat + 4)) :=
  ⟨rfl, by decide, by decide, by decide,
   bounds_check_ignores_access_width [sampleNode] 1 sampleNode 4 7 0 rfl
     (by decide) (by decide) (by decide)⟩

end PlcStub
